import Mathlib

/-!
Shallow embedding of `babysitter/babysitter.py`: a watchdog that monitors
disk space, processes and files, with edge-triggered alerting, a bounded
process-restart policy, a daily heartbeat scheduler and a numeric data
subdirectory watcher.

Python state constants are `FAIL = 0`, `OK = 1`; Python booleans coerce to
these integers, so states are modelled as `Nat`.  Effectful inspections
(`pidof`, `os.path.getmtime`, `os.path.getsize`, `os.statvfs`, wall-clock
time) are passed in explicitly; an inspection primitive that can raise an
OS-level exception is modelled as an `Option` (`none` = the primitive
raised).  Times are rationals (Python floats of `time.time()` /
`datetime`).
-/

namespace Babysitter

/-- Python constant `FAIL = 0` (babysitter.py line 62). -/
def FAIL : Nat := 0

/-- Python constant `OK = 1` (babysitter.py line 63). -/
def OK : Nat := 1

/-- Polling interval `UPDATE_PERIOD = 10` seconds (line 65). -/
def UPDATE_PERIOD : Nat := 10

/-! ## Checker base class: edge detection (lines 67-101) -/

/-- Source `Checker.update_last_state` (lines 81-82): `self.last_state = self.state()`.
The freshly evaluated state becomes the stored baseline. -/
def update_last_state (state : Nat) : Nat := state

/-- Source `Checker.just_changed_state` (lines 91-101) for a freshly evaluated
`state` and the stored `last_state`: if they are equal return `False`
(leaving `last_state` alone); otherwise set `last_state = state` and
return `True`.  Result is `(returned bool, new last_state)`. -/
def just_changed_state (state last_state : Nat) : Bool × Nat :=
  if state = last_state then (false, last_state)
  else (true, state)

/-- Running `just_changed_state` once per tick over a list of successive
state evaluations, starting from stored baseline `last`; returns the list
of returned booleans. -/
def just_changed_run (last : Nat) : List Nat → List Bool
  | [] => []
  | s :: rest =>
    let r := just_changed_state s last
    r.1 :: just_changed_run r.2 rest

/-! ## HeartBeat and Manager._need_to_send_heartbeat (lines 506-511, 605-613) -/

/-- Fields of `HeartBeat` (lines 506-511): `hour` is the target hour (`None` until
configured), `last_checked` is initialised to the hour of construction. -/
structure HeartBeat where
  hour : Option Nat
  last_checked : Nat
  deriving Repr, DecidableEq

/-- Constructor `HeartBeat.__init__` (lines 507-511): `self.hour = None`,
`self.last_checked = datetime.datetime.now().hour`. -/
def HeartBeat.init (construction_hour : Nat) : HeartBeat :=
  { hour := none, last_checked := construction_hour }

/-- Source `Manager._need_to_send_heartbeat` (lines 605-613):
`need = (now_hour == heartbeat.hour and heartbeat.last_checked != heartbeat.hour)`;
then always `heartbeat.last_checked = now_hour`.  Python's `int == None`
is `False` and `int != None` is `True`, hence the `Option` comparisons. -/
def need_to_send_heartbeat (hb : HeartBeat) (now_hour : Nat) : Bool × HeartBeat :=
  let need := decide (hb.hour = some now_hour) && decide (hb.hour ≠ some hb.last_checked)
  (need, { hb with last_checked := now_hour })

/-- Running `_need_to_send_heartbeat` once per tick over a list of observed
wall-clock hours; returns the list of returned booleans. -/
def heartbeat_run (hb : HeartBeat) : List Nat → List Bool
  | [] => []
  | h :: rest =>
    let r := need_to_send_heartbeat hb h
    r.1 :: heartbeat_run r.2 rest

/-! ## Process checker and the restart policy (lines 119-227) -/

/-- Static attribute `Process.MAX_RESTART_RETRIES = 5` (line 140). -/
def MAX_RESTART_RETRIES : Nat := 5

/-- Static attribute `Process.RESET_RETRIES_AFTER = 60 * 60` seconds (line 141). -/
def RESET_RETRIES_AFTER : Nat := 60 * 60

/-- Mutable fields of a `Process` checker (lines 143-151): the optional
restart command, the unix time of the previous restart attempt
(initially `0`), and the consecutive-retry counter (initially `0`). -/
structure Process where
  restart_command : Option String
  prev_restart_time : ℚ
  retries : Nat
  deriving Repr, DecidableEq

/-- Source `Process.state` (lines 196-212).  Here `pid_found = false` models
`pidof` exiting nonzero, i.e. `subprocess.CalledProcessError`, the
exception the `try/except` maps to `FAIL`; `now` is `time.time()`.
Secondary effect: when `self.retries` is nonzero and more than
`RESET_RETRIES_AFTER` seconds have elapsed since `prev_restart_time`,
the retry counter is reset to `0`.  Returns `(state, updated process)`. -/
def Process.state (p : Process) (pid_found : Bool) (now : ℚ) : Nat × Process :=
  let st := if pid_found then OK else FAIL
  let p' :=
    if p.retries ≠ 0 then
      if now - p.prev_restart_time > (RESET_RETRIES_AFTER : ℚ) then
        { p with retries := 0 }
      else p
    else p
  (st, p')

/-- Outcome of one `Process.restart` call (lines 157-194). -/
inductive RestartResult where
  /-- Branch `restart_command is None`: returned without any bookkeeping. -/
  | noCommand
  /-- Branch `self.state() == OK`: returned without restarting. -/
  | healthy
  /-- Branch `self.retries > MAX_RESTART_RETRIES`: raised `MaxRetriesError`. -/
  | maxRetries
  /-- Recorded the attempt (`prev_restart_time = now`, `retries += 1`)
  and spawned the restart command. -/
  | restarted
  deriving Repr, DecidableEq

/-- Source `Process.restart` (lines 157-194).  Order of operations in the
source: bail out if no restart command; evaluate `state()` (whose
quiet-period reset side effect applies first) and bail out if `OK`;
raise `MaxRetriesError` if `retries > MAX_RESTART_RETRIES`; otherwise
record the attempt time, increment `retries` and spawn the command. -/
def Process.restart (p : Process) (pid_found : Bool) (now : ℚ) :
    RestartResult × Process :=
  if p.restart_command.isNone then (.noCommand, p)
  else
    let r := p.state pid_found now
    if r.1 = OK then (.healthy, r.2)
    else if r.2.retries > MAX_RESTART_RETRIES then (.maxRetries, r.2)
    else (.restarted, { r.2 with prev_restart_time := now, retries := r.2.retries + 1 })

/-- Run of `n` consecutive ticks of the supervisor loop's restart branch
(lines 570-579) against a process whose `pidof` keeps failing, all at
wall-clock time `now`: each tick calls `checker.restart()`.  Returns the
per-tick outcomes and the final process. -/
def restart_ticks (p : Process) (now : ℚ) : Nat → List RestartResult × Process
  | 0 => ([], p)
  | n + 1 =>
    let r := p.restart false now
    let rest := restart_ticks r.2 now n
    (r.1 :: rest.1, rest.2)

/-! ## File checker (lines 229-289) -/

/-- Source `File.last_modified` (lines 269-274): `os.path.getmtime`, with
`OSError` (file not found) mapped to `0`.  `mtime = none` models the
raised `OSError`. -/
def File.last_modified (mtime : Option ℚ) : ℚ :=
  match mtime with
  | none => 0
  | some t => t

/-- Source `File.seconds_since_modified` (lines 266-267):
`time.time() - self.last_modified()`. -/
def File.seconds_since_modified (now : ℚ) (mtime : Option ℚ) : ℚ :=
  now - File.last_modified mtime

/-- Mutable fields of a `File` checker relevant to `state` (lines
240-252): the staleness timeout (`int(timeout)`) and the accumulated
`dead_duration`. -/
structure FileChk where
  timeout : ℤ
  dead_duration : ℚ
  deriving Repr, DecidableEq

/-- Source `File.state` (lines 260-264): the Python bool
`seconds_since_modified() < timeout` is the state (`True = OK = 1`,
`False = FAIL = 0`); on `FAIL` the `dead_duration` field is updated.
Returns `(state, updated checker)`. -/
def FileChk.state (f : FileChk) (now : ℚ) (mtime : Option ℚ) : Nat × FileChk :=
  let s := if File.seconds_since_modified now mtime < (f.timeout : ℚ) then OK else FAIL
  if s = FAIL then (s, { f with dead_duration := File.seconds_since_modified now mtime })
  else (s, f)

/-! ## FileGrows checker (lines 292-320) -/

/-- Source `FileGrows.size` (lines 311-316): `os.path.getsize`, with `OSError`
(file doesn't exist) mapped to `0`.  `sz = none` models the raised
`OSError`. -/
def FileGrows.size (sz : Option Nat) : Nat :=
  match sz with
  | none => 0
  | some s => s

/-- Source `FileGrows.state` (lines 304-309): if the current size equals
`last_size` return `OK`; otherwise update `last_size` to the current
size and return `FAIL`.  Returns `(state, new last_size)`. -/
def FileGrows.state (last_size : Nat) (sz : Option Nat) : Nat × Nat :=
  if FileGrows.size sz = last_size then (OK, last_size)
  else (FAIL, FileGrows.size sz)

/-! ## DiskSpaceRemaining checker (lines 323-371) -/

/-- Fields of `DiskSpaceRemaining` (lines 325-335): free-space threshold
in MB (`int(threshold)`), the free space observed at construction, and
the construction time (`datetime.now()`, as seconds). -/
structure DiskSpaceRemaining where
  threshold : ℤ
  initial_space_remaining : ℚ
  initial_time : ℚ
  deriving Repr, DecidableEq

/-- Source `DiskSpaceRemaining.state` (lines 337-338):
`self.available_space() > self.threshold`.  `available_space` (lines
340-344) calls `os.statvfs(self.path)` with no exception handler, so a
failed `statvfs` (modelled by `statvfs = none`) propagates out of
`state()`: the result is `none` (an exception), not a state. -/
def DiskSpaceRemaining.state (d : DiskSpaceRemaining) (statvfs : Option ℚ) :
    Option Nat :=
  match statvfs with
  | none => none
  | some free => some (if free > (d.threshold : ℚ) then OK else FAIL)

/-- Source `DiskSpaceRemaining.space_decay_rate` (lines 346-351):
`(available_space() - initial_space_remaining) / elapsed seconds`;
negative means the disk is filling up. -/
def DiskSpaceRemaining.space_decay_rate (d : DiskSpaceRemaining)
    (now current_free : ℚ) : ℚ :=
  (current_free - d.initial_space_remaining) / (now - d.initial_time)

/-- Source `DiskSpaceRemaining.time_until_full` (lines 353-358): when the
elapsed time exceeds `UPDATE_PERIOD` and the decay rate is negative,
returns `available_space() / -space_decay_rate()` seconds; otherwise
the Python function falls through and returns `None`. -/
def DiskSpaceRemaining.time_until_full (d : DiskSpaceRemaining)
    (now current_free : ℚ) : Option ℚ :=
  if now - d.initial_time > (UPDATE_PERIOD : ℚ) ∧ d.space_decay_rate now current_free < 0
  then some (current_free / -(d.space_decay_rate now current_free))
  else none

/-! ## Manager._find_last_numeric_subdir (lines 707-721) -/

/-- Comparison used by Python's `list.sort()` on `str`: lexicographic on
code points.  Lean's `String` order is the same relation
(`s₁ < s₂ ↔ s₁.data < s₂.data`); comparing the underlying character
lists keeps the comparison kernel-computable. -/
def strLtb (a b : String) : Bool := decide (a.data < b.data)

/-- Ascending insertion of one element, auxiliary to `sortStrings`. -/
def insertAsc (x : String) : List String → List String
  | [] => [x]
  | y :: ys => if strLtb x y then x :: y :: ys else y :: insertAsc x ys

/-- Model of Python's `numeric_subdirs.sort()` (line 720): an ascending
insertion sort under the string order. -/
def sortStrings : List String → List String
  | [] => []
  | x :: xs => insertAsc x (sortStrings xs)

/-- Filter on line 716-717: keep the subdirectory names that contain no
alphabetic character (`not any(char.isalpha() for char in subdir)`). -/
def numeric_subdirs (existing_subdirs : List String) : List String :=
  existing_subdirs.filter (fun s => !(s.data.any Char.isAlpha))

/-- Source `Manager._find_last_numeric_subdir` (lines 707-721):
`existing_subdirs` is the list of immediate subdirectory names of
`base_data_dir` (from `os.walk`); names containing an alphabetic
character are dropped; if any remain they are sorted (plain string
sort) and the last one is returned, else the function falls through
and returns `None` (`getLast?` of the empty sorted list). -/
def find_last_numeric_subdir (existing_subdirs : List String) : Option String :=
  (sortStrings (numeric_subdirs existing_subdirs)).getLast?

end Babysitter

namespace Babysitter

/-! ## Helper lemmas -/

/-- The boolean string comparison agrees with the lexicographic string
order. -/
theorem strLtb_iff {a b : String} : strLtb a b = true ↔ a < b := by
  simp only [strLtb, decide_eq_true_eq]
  exact String.lt_iff_toList_lt.symm

theorem mem_insertAsc {a x : String} : ∀ {l : List String},
    a ∈ insertAsc x l ↔ a = x ∨ a ∈ l
  | [] => by simp [insertAsc]
  | y :: ys => by
    unfold insertAsc
    split
    · simp
    · simp only [List.mem_cons, mem_insertAsc (l := ys)]
      tauto

theorem sorted_insertAsc (x : String) : ∀ {l : List String},
    l.Sorted (· ≤ ·) → (insertAsc x l).Sorted (· ≤ ·)
  | [], _ => by simp [insertAsc]
  | y :: ys, h => by
    unfold insertAsc
    split
    · rename_i hxy
      replace hxy : x < y := strLtb_iff.mp hxy
      refine List.sorted_cons.mpr ⟨fun b hb => ?_, h⟩
      rcases List.mem_cons.mp hb with rfl | hb
      · exact le_of_lt hxy
      · exact le_of_lt (lt_of_lt_of_le hxy (List.rel_of_sorted_cons h b hb))
    · rename_i hxy
      replace hxy : ¬ x < y := fun hc => hxy (strLtb_iff.mpr hc)
      have hs := sorted_insertAsc x (List.sorted_cons.mp h).2
      refine List.sorted_cons.mpr ⟨fun b hb => ?_, hs⟩
      rcases mem_insertAsc.mp hb with rfl | hb
      · exact le_of_not_lt hxy
      · exact List.rel_of_sorted_cons h b hb

theorem sorted_sortStrings : ∀ l : List String, (sortStrings l).Sorted (· ≤ ·)
  | [] => by simp [sortStrings]
  | x :: xs => sorted_insertAsc x (sorted_sortStrings xs)

theorem mem_sortStrings {a : String} : ∀ {l : List String},
    a ∈ sortStrings l ↔ a ∈ l
  | [] => by simp [sortStrings]
  | x :: xs => by
    simp only [sortStrings, mem_insertAsc, List.mem_cons, mem_sortStrings (l := xs)]

theorem insertAsc_ne_nil {x : String} : ∀ {l : List String}, insertAsc x l ≠ []
  | [] => by simp [insertAsc]
  | y :: ys => by unfold insertAsc; split <;> simp

theorem sortStrings_eq_nil : ∀ {l : List String}, sortStrings l = [] ↔ l = []
  | [] => by simp [sortStrings]
  | x :: xs => by
    simp only [sortStrings]
    exact ⟨fun h => absurd h insertAsc_ne_nil, fun h => by simp at h⟩

/-- In a list sorted ascending by the string order, every member is at
most the last element. -/
theorem le_getLast_of_sorted : ∀ {l : List String}, l.Sorted (· ≤ ·) →
    ∀ {m}, l.getLast? = some m → ∀ x ∈ l, x ≤ m
  | [], _, _, hm => by simp at hm
  | [a], _, m, hm => by
    simp only [List.getLast?_singleton, Option.some.injEq] at hm
    subst hm
    simp
  | a :: b :: t, h, m, hm => by
    rw [List.getLast?_cons_cons] at hm
    intro x hx
    rcases List.mem_cons.mp hx with rfl | hx
    · have hmmem : m ∈ b :: t :=
        List.mem_of_mem_getLast? (by rw [hm]; exact rfl)
      exact List.rel_of_sorted_cons h m hmmem
    · exact le_getLast_of_sorted h.of_cons hm x hx

/-- A call to `Process.state` whose quiet-period condition does not hold
leaves the process record unchanged. -/
theorem state_no_reset (p : Process) (b : Bool) (now : ℚ)
    (h : ¬ (now - p.prev_restart_time > (RESET_RETRIES_AFTER : ℚ))) :
    p.state b now = (if b then OK else FAIL, p) := by
  unfold Process.state
  by_cases hr : p.retries ≠ 0 <;> simp [hr, h]

/-- One restart attempt against a still-dead process at the same
wall-clock time as the previous attempt: no quiet-period reset, so the
retry-budget comparison sees the accumulated counter. -/
theorem restart_step (c : String) (t : ℚ) (r : Nat) :
    (Process.mk (some c) t r).restart false t =
      (if r > MAX_RESTART_RETRIES then (.maxRetries, ⟨some c, t, r⟩)
       else (.restarted, ⟨some c, t, r + 1⟩)) := by
  unfold Process.restart
  rw [state_no_reset _ _ _ (by simp)]
  simp [OK, FAIL]

/-- A heartbeat whose target hour equals both the current hour and the
stored last-checked hour reports nothing to send and is left unchanged. -/
theorem heartbeat_same (t : Nat) :
    need_to_send_heartbeat ⟨some t, t⟩ t = (false, ⟨some t, t⟩) := by
  simp [need_to_send_heartbeat]

end Babysitter

namespace Babysitter

/-! ## Claims -/

/-- C1 (code divergence record): with a configured restart command and a
process whose `pidof` fails on every tick (no quiet-period reset, all
ticks inside the reset window), the code spawns a restart on each of the
first SIX ticks — the budget check `self.retries > MAX_RESTART_RETRIES`
is strict, so retries runs 0,1,2,3,4,5 through six increments — and
`MaxRetriesError` is first raised on the SEVENTH tick.  The claim (and
the class docstring, which calls `MAX_RESTART_RETRIES = 5` the max
number of restart attempts) predicts exactly 5 attempts and a terminal
signal on the 6th tick. -/
theorem claim_C1 :
    (restart_ticks ⟨some "cmd", 0, 0⟩ 0 6).1 = List.replicate 6 .restarted ∧
    (restart_ticks ⟨some "cmd", 0, 0⟩ 0 6).2.retries = 6 ∧
    (restart_ticks ⟨some "cmd", 0, 0⟩ 0 7).1 =
      [.restarted, .restarted, .restarted, .restarted, .restarted, .restarted,
       .maxRetries] := by
  refine ⟨?_, ?_, ?_⟩ <;>
    simp [restart_ticks, restart_step, MAX_RESTART_RETRIES, List.replicate]

/-- C2 (amended): Process, File and FileGrows state evaluation never
raises — a failed pid lookup maps to FAIL, and a missing file is treated
as modification time 0 (File) resp. size 0 (FileGrows), from which the
ordinary OK/FAIL rule produces a state; DiskSpaceRemaining.state,
however, calls os.statvfs with no exception handler, so an inspection
failure there propagates instead of producing a state. -/
theorem claim_C2 :
    (∀ (p : Process) (now : ℚ), (p.state false now).1 = FAIL) ∧
    (∀ (f : FileChk) (now : ℚ),
        (f.state now none).1 = if now < (f.timeout : ℚ) then OK else FAIL) ∧
    (∀ last_size : Nat,
        FileGrows.state last_size none
          = if 0 = last_size then (OK, last_size) else (FAIL, 0)) ∧
    (∀ d : DiskSpaceRemaining, d.state none = none) := by
  refine ⟨fun p now => rfl, fun f now => ?_, fun ls => ?_, fun d => rfl⟩
  · by_cases h : now < (f.timeout : ℚ) <;>
      simp [FileChk.state, File.seconds_since_modified, File.last_modified,
        h, OK, FAIL]
  · simp only [FileGrows.state, FileGrows.size]

/-- C2 counterexample: a DiskSpaceRemaining check (threshold 20 MB) whose
os.statvfs call fails produces no state at all — the OSError propagates
out of state(), refuting "a state value is always produced for the
caller" for every check variant. -/
theorem claim_C2_counterexample :
    DiskSpaceRemaining.state ⟨20, 1000, 0⟩ none = none := rfl

/-- C3 (amended): _find_last_numeric_subdir keeps the subdirectory names
that contain no alphabetic character and returns the greatest under
plain string comparison (lexicographic), or none when no such name
exists; in particular for ["3","10","9"] the chosen latest subdirectory
is "9" (string comparison, not numeric comparison). -/
theorem claim_C3 :
    find_last_numeric_subdir ["3", "10", "9"] = some "9" ∧
    ∀ l : List String,
      (find_last_numeric_subdir l = none ↔ numeric_subdirs l = []) ∧
      ∀ m, find_last_numeric_subdir l = some m →
        m ∈ numeric_subdirs l ∧ ∀ x ∈ numeric_subdirs l, x ≤ m := by
  refine ⟨by decide, fun l => ⟨?_, fun m hm => ?_⟩⟩
  · rw [find_last_numeric_subdir, List.getLast?_eq_none_iff, sortStrings_eq_nil]
  · have hmem : m ∈ sortStrings (numeric_subdirs l) :=
      List.mem_of_mem_getLast? (by rw [find_last_numeric_subdir] at hm; rw [hm]; rfl)
    refine ⟨mem_sortStrings.mp hmem, fun x hx => ?_⟩
    exact le_getLast_of_sorted (sorted_sortStrings _) hm x (mem_sortStrings.mpr hx)

/-- C3 witness: the amended claim instantiated at the directory listing
["3","10","9"] and its computed latest subdirectory "9". -/
theorem claim_C3_witness :
    "9" ∈ numeric_subdirs ["3", "10", "9"] ∧
      ∀ x ∈ numeric_subdirs ["3", "10", "9"], x ≤ "9" :=
  (claim_C3.2 ["3", "10", "9"]).2 "9" (by decide)

/-- C3 counterexample: for a base directory containing exactly the
subdirectories ["3","10","9"], the code's chosen latest subdirectory is
"9", not the numerically greatest "10" — `numeric_subdirs.sort()` is a
plain string sort. -/
theorem claim_C3_counterexample :
    find_last_numeric_subdir ["3", "10", "9"] = some "9" ∧
      (some "9" : Option String) ≠ some "10" := by decide

/-- C4: just_changed_state returns false when the freshly evaluated
state equals the stored last_state, and otherwise updates last_state and
returns true; for evaluations [OK, OK, FAIL, FAIL, OK] with the first
captured as baseline, the four subsequent calls return
[false, true, false, true], i.e. [false, false, true, false, true]
across the five ticks including the baseline. -/
theorem claim_C4 :
    (∀ state last_state : Nat,
      (state = last_state →
        just_changed_state state last_state = (false, last_state)) ∧
      (state ≠ last_state →
        just_changed_state state last_state = (true, state))) ∧
    just_changed_run (update_last_state OK) [OK, FAIL, FAIL, OK]
      = [false, true, false, true] ∧
    false :: just_changed_run (update_last_state OK) [OK, FAIL, FAIL, OK]
      = [false, false, true, false, true] := by
  refine ⟨fun s l => ⟨fun h => ?_, fun h => ?_⟩, by decide, by decide⟩
  · simp [just_changed_state, h]
  · simp [just_changed_state, h]

/-- C4 witness: a FAIL evaluation against a stored OK baseline reports a
change and stores the new state. -/
theorem claim_C4_witness : just_changed_state OK FAIL = (true, OK) :=
  (claim_C4.1 OK FAIL).2 (by decide)

/-- C5: _need_to_send_heartbeat returns true exactly when the current
hour equals the configured target hour and the stored last-checked hour
differs from the current hour, and always records the current hour in
last_checked; with target hour 6 and current hours [5,6,6,6,7] the
returned sequence is [false,true,false,false,false]. -/
theorem claim_C5 :
    (∀ (hb : HeartBeat) (now_hour target : Nat), hb.hour = some target →
      (((need_to_send_heartbeat hb now_hour).1 = true ↔
          (now_hour = target ∧ hb.last_checked ≠ now_hour)) ∧
        (need_to_send_heartbeat hb now_hour).2.last_checked = now_hour)) ∧
    heartbeat_run ⟨some 6, 5⟩ [5, 6, 6, 6, 7]
      = [false, true, false, false, false] := by
  refine ⟨fun hb now target ht => ⟨?_, rfl⟩, by decide⟩
  obtain ⟨hh, lc⟩ := hb
  simp only at ht
  subst ht
  simp only [need_to_send_heartbeat, Bool.and_eq_true, decide_eq_true_eq,
    Option.some.injEq, ne_eq]
  constructor
  · rintro ⟨h1, h2⟩
    subst h1
    exact ⟨rfl, fun hc => h2 (by rw [hc])⟩
  · rintro ⟨h1, h2⟩
    subst h1
    exact ⟨rfl, fun hc => h2 (by rw [hc])⟩

/-- C5 witness: target hour 6, last-checked hour 5, current hour 6. -/
theorem claim_C5_witness :
    ((need_to_send_heartbeat ⟨some 6, 5⟩ 6).1 = true ↔ (6 = 6 ∧ 5 ≠ 6)) ∧
      (need_to_send_heartbeat ⟨some 6, 5⟩ 6).2.last_checked = 6 :=
  claim_C5.1 ⟨some 6, 5⟩ 6 6 rfl

/-- C6: when the retry counter is nonzero and more than
RESET_RETRIES_AFTER seconds have elapsed since the previous restart
attempt, Process.state resets the counter to 0; and since restart()
evaluates state() before its budget check, such a restart attempt sees
the counter reset and ends with the counter at 1. -/
theorem claim_C6 :
    (∀ (p : Process) (pid_found : Bool) (now : ℚ), p.retries ≠ 0 →
        now - p.prev_restart_time > (RESET_RETRIES_AFTER : ℚ) →
        (p.state pid_found now).2.retries = 0) ∧
    (∀ (p : Process) (c : String) (now : ℚ), p.restart_command = some c →
        p.retries ≠ 0 → now - p.prev_restart_time > (RESET_RETRIES_AFTER : ℚ) →
        p.restart false now =
          (.restarted, { p with retries := 1, prev_restart_time := now })) := by
  constructor
  · intro p b now hr ht
    simp [Process.state, hr, ht]
  · intro p c now hc hr ht
    simp only [Process.restart, hc, Option.isNone_some, Bool.false_eq_true,
      if_false, Process.state, hr, ht, if_true, ite_not]
    simp [OK, FAIL, MAX_RESTART_RETRIES]

/-- C6 witness: a process with 3 accumulated retries, previous restart at
time 0, next attempt at time 3601 (one second past the one-hour reset
window). -/
theorem claim_C6_witness :
    (Process.state ⟨some "cmd", 0, 3⟩ false 3601).2.retries = 0 ∧
    Process.restart ⟨some "cmd", 0, 3⟩ false 3601
      = (.restarted, ⟨some "cmd", 3601, 1⟩) :=
  ⟨claim_C6.1 ⟨some "cmd", 0, 3⟩ false 3601 (by decide)
      (by simp only [sub_zero]; decide),
   claim_C6.2 ⟨some "cmd", 0, 3⟩ "cmd" 3601 rfl (by decide)
      (by simp only [sub_zero]; decide)⟩

/-- C7: FileGrows.state compares the current file size (0 for a missing
file) to the recorded size: equal gives OK with the record unchanged,
different gives FAIL with the record updated to the current size. -/
theorem claim_C7 :
    (∀ (last_size : Nat) (sz : Option Nat), FileGrows.size sz = last_size →
        FileGrows.state last_size sz = (OK, last_size)) ∧
    (∀ (last_size : Nat) (sz : Option Nat), FileGrows.size sz ≠ last_size →
        FileGrows.state last_size sz = (FAIL, FileGrows.size sz)) ∧
    FileGrows.size none = 0 := by
  refine ⟨fun ls sz h => ?_, fun ls sz h => ?_, rfl⟩
  · simp [FileGrows.state, h]
  · simp [FileGrows.state, h]

/-- C7 witness: a file that grew from 5 to 7 bytes reports FAIL and
records the new size. -/
theorem claim_C7_witness : FileGrows.state 5 (some 7) = (FAIL, 7) :=
  claim_C7.2.1 5 (some 7) (by decide)

/-- C8: the space decay rate is (current free − initial free) divided by
elapsed seconds, and time-until-full is reported as current free divided
by the negated decay rate exactly when the decay rate is negative and
the elapsed time exceeds UPDATE_PERIOD; with initial free 1000 MB at
t = 0 and free 990 MB at t = 100 s the rate is −0.1 MB/s and the
time until full is 9900 s. -/
theorem claim_C8 :
    (∀ (d : DiskSpaceRemaining) (now current_free : ℚ),
        d.space_decay_rate now current_free =
          (current_free - d.initial_space_remaining) / (now - d.initial_time) ∧
        ((d.time_until_full now current_free).isSome ↔
          (now - d.initial_time > (UPDATE_PERIOD : ℚ) ∧
            d.space_decay_rate now current_free < 0)) ∧
        d.time_until_full now current_free =
          (if now - d.initial_time > (UPDATE_PERIOD : ℚ) ∧
              d.space_decay_rate now current_free < 0
           then some (current_free / -(d.space_decay_rate now current_free))
           else none)) ∧
    DiskSpaceRemaining.space_decay_rate ⟨0, 1000, 0⟩ 100 990 = -1/10 ∧
    DiskSpaceRemaining.time_until_full ⟨0, 1000, 0⟩ 100 990 = some 9900 := by
  refine ⟨fun d now cf => ⟨rfl, ?_, rfl⟩, ?_, ?_⟩
  · rw [DiskSpaceRemaining.time_until_full]
    split <;> rename_i h <;> simp [h]
  · norm_num [DiskSpaceRemaining.space_decay_rate]
  · rw [DiskSpaceRemaining.time_until_full]
    rw [if_pos]
    · norm_num [DiskSpaceRemaining.space_decay_rate]
    · norm_num [DiskSpaceRemaining.space_decay_rate, UPDATE_PERIOD]

/-- C9: after every just_changed_state call the stored last_state equals
the single state value sampled during that call, whether or not a change
was reported. -/
theorem claim_C9 : ∀ state last_state : Nat,
    (just_changed_state state last_state).2 = state := by
  intro s l
  unfold just_changed_state
  split <;> simp_all

/-- C10: a HeartBeat constructed during the target hour has last_checked
equal to that hour, so every _need_to_send_heartbeat call made while the
wall clock still reads the target hour returns false — the scheduled
heartbeat for the startup hour is suppressed. -/
theorem claim_C10 : ∀ (target : Nat) (hours : List Nat),
    (∀ h ∈ hours, h = target) →
    heartbeat_run { HeartBeat.init target with hour := some target } hours
      = List.replicate hours.length false := by
  intro target hours
  have hinit : ({ HeartBeat.init target with hour := some target } : HeartBeat)
      = ⟨some target, target⟩ := rfl
  rw [hinit]
  induction hours with
  | nil => intro _; rfl
  | cons h t ih =>
    intro hall
    have hh : h = target := hall h (List.mem_cons_self h t)
    subst hh
    simp only [heartbeat_run, heartbeat_same, List.length_cons,
      List.replicate_succ, List.cons.injEq]
    exact ⟨trivial, ih (fun x hx => hall x (List.mem_cons_of_mem _ hx))⟩

/-- C10 witness: manager started at hour 6 with target hour 6; three
ticks during that hour all report nothing to send. -/
theorem claim_C10_witness :
    heartbeat_run { HeartBeat.init 6 with hour := some 6 } [6, 6, 6]
      = List.replicate 3 false :=
  claim_C10 6 [6, 6, 6] (by decide)

end Babysitter
